import Mathlib

/-! Verification of the prompt-construction and response-extraction pipeline of
the Gemini2 PowerShell Command Gen application (`detailed-comments-app.py`).

Strings are modelled as `List Char`.  Python's `str.strip`, `str.lower` and
the regex character class `\s` are modelled on their ASCII fragments, which
coincide with Python's behaviour on all ASCII inputs. -/

namespace PSGen

/-- The backtick character U+0060 (the fence-marker character of the regex
literal in `parse_and_save_ps1`, line 195). -/
def bq : Char := Char.ofNat 96

/-- ASCII whitespace, as recognised by Python `str.strip()` and by the regex
class `\s` (space, tab, newline, carriage return, vertical tab, form feed). -/
def isPySpace (c : Char) : Bool :=
  c = ' ' || c = Char.ofNat 9 || c = Char.ofNat 10 || c = Char.ofNat 13 ||
  c = Char.ofNat 11 || c = Char.ofNat 12

/-- Drop leading whitespace (left part of Python `str.strip()`). -/
def stripLeft : List Char → List Char
  | [] => []
  | c :: cs => if isPySpace c then stripLeft cs else c :: cs

/-- Drop trailing whitespace (right part of Python `str.strip()`). -/
def stripRight (s : List Char) : List Char :=
  (stripLeft s.reverse).reverse

/-- Python `str.strip()` with no arguments: drop leading and trailing
whitespace. -/
def pyStrip (s : List Char) : List Char := stripRight (stripLeft s)

/-- Python `str.lower()` on a single ASCII character. -/
def asciiLower (c : Char) : Char :=
  if 'A' ≤ c && c ≤ 'Z' then Char.ofNat (c.toNat + 32) else c

/-- Python `str.lower()` (ASCII fragment). -/
def pyLower (s : List Char) : List Char := s.map asciiLower

/-- Python `str.replace(" ", "_")`: replace every space by an underscore. -/
def replaceSpaces (s : List Char) : List Char :=
  s.map (fun c => if c = ' ' then '_' else c)

/-- `main`, line 390: `short_title = prompt_base[:30].strip().replace(" ", "_").lower()`. -/
def shortTitleOf (prompt_base : List Char) : List Char :=
  pyLower (replaceSpaces (pyStrip (prompt_base.take 30)))

/-- The character classes of the 13-character regex literal opening marker
(three backticks followed by "powershell") under `re.IGNORECASE` (ASCII
case folding). -/
def mkChars : List (Char → Bool) :=
  [fun c => c = bq, fun c => c = bq, fun c => c = bq,
   fun c => c = 'p' || c = 'P', fun c => c = 'o' || c = 'O',
   fun c => c = 'w' || c = 'W', fun c => c = 'e' || c = 'E',
   fun c => c = 'r' || c = 'R', fun c => c = 's' || c = 'S',
   fun c => c = 'h' || c = 'H', fun c => c = 'e' || c = 'E',
   fun c => c = 'l' || c = 'L', fun c => c = 'l' || c = 'L']

/-- Match a list of character classes against the front of a string; on
success return the remainder of the string. -/
def matchesClasses : List (Char → Bool) → List Char → Option (List Char)
  | [], s => some s
  | _ :: _, [] => none
  | f :: fs, c :: cs => if f c then matchesClasses fs cs else none

/-- Whether `s` starts with the case-insensitive opening marker; on success
return the text after the marker. -/
def stripMarker (s : List Char) : Option (List Char) := matchesClasses mkChars s

/-- Whether `s` starts with the three-backtick closing terminator. -/
def startsTicks : List Char → Bool
  | a :: b :: c :: _ => a = bq && b = bq && c = bq
  | _ => false

/-- Split at the first occurrence of the three-backtick terminator: return the
text strictly before it, or `none` when no terminator occurs. -/
def splitAtTicks : List Char → Option (List Char)
  | [] => none
  | c :: cs =>
    if startsTicks (c :: cs) then some []
    else
      match splitAtTicks cs with
      | some l => some (c :: l)
      | none => none

/-- The fenced-block search of `parse_and_save_ps1`, line 195:
`re.search` with pattern three backticks + "powershell" + `\s*(.*?)\s*` +
three backticks, flags `DOTALL | IGNORECASE`.  The match starts at the first
position where the opening marker matches and a closing terminator occurs
later; the result is the interior between the marker and the first closing
terminator after it.  (The `\s*` trimming of the captured group is subsumed
by the `.strip()` the caller applies: stripping the full interior gives the
same string as stripping the captured group.) -/
def extractBlock : List Char → Option (List Char)
  | [] => none
  | c :: cs =>
    match stripMarker (c :: cs) with
    | some rest =>
      match splitAtTicks rest with
      | some interior => some interior
      | none => extractBlock cs
    | none => extractBlock cs

/-- The extraction step of `parse_and_save_ps1`, lines 195-201 (the spec's
`extractScript` body computation): the stripped interior of the first fenced
block, or the whole stripped reply when no block is found. -/
def extractedBody (ai_code : List Char) : List Char :=
  match extractBlock ai_code with
  | some m => pyStrip m
  | none => pyStrip ai_code

/-- Whether the three-backtick terminator occurs anywhere in `s`. -/
def hasTicks : List Char → Bool
  | [] => false
  | c :: cs => startsTicks (c :: cs) || hasTicks cs

/-- Whether the case-insensitive opening marker occurs anywhere in `s`. -/
def hasMarker : List Char → Bool
  | [] => false
  | c :: cs => (stripMarker (c :: cs)).isSome || hasMarker cs

/-- The lowercase opening marker, as emitted literally by conforming model
replies. -/
def mkLower : List Char := [bq, bq, bq, 'p', 'o', 'w', 'e', 'r', 's', 'h', 'e', 'l', 'l']

/-- The fully upper-cased variant of the opening marker. -/
def mkUpper : List Char := [bq, bq, bq, 'P', 'O', 'W', 'E', 'R', 'S', 'H', 'E', 'L', 'L']

/-- The three-backtick closing terminator. -/
def ticks3 : List Char := [bq, bq, bq]

/-- The banner line of the generated header: `#` followed by 79 `=` signs
(`parse_and_save_ps1`, lines 212 and 216). -/
def bannerLine : List Char := '#' :: List.replicate 79 '='

/-- The fixed text of the header up to the interpolated date
(`parse_and_save_ps1`, lines 211-214). -/
def headerFixedStart : List Char :=
  '\n' :: bannerLine ++
  ("\n# Script Generated by Google Gemini 2 PowerShell Command Gen\n# Date: ").toList

/-- The full header f-string of `parse_and_save_ps1`, lines 211-217, with the
formatted current date interpolated. -/
def headerText (current_date : List Char) : List Char :=
  headerFixedStart ++ current_date ++
  ("\n# Author: Elias Andrade AKA Chaos4455\n").toList ++ bannerLine ++ ("\n    ").toList

/-- A single file-system write event: `open(file_name, "w", encoding=encoding)`
followed by `f.write(ps1_code)` (lines 222-224).  `content` is the text
handed to `write` before the encoder is applied. -/
structure FsWrite where
  path : List Char
  content : List Char
  enc : List Char

/-- The value returned by `parse_and_save_ps1` (line 226) together with the
write event it performed. -/
structure SaveResult where
  file_name : List Char
  ps1_code : List Char
  written : FsWrite

/-- `parse_and_save_ps1` (lines 164-226): extract the script body, derive the
file name `command_{short_title}.ps1`, optionally prepend the header, write
the body to the file and return the pair.  The current local timestamp is an
explicit parameter (`datetime.datetime.now().strftime(...)`, line 209). -/
def parse_and_save_ps1 (ai_code short_title encoding : List Char) (add_header : Bool)
    (current_date : List Char) : SaveResult :=
  let ps1_code := extractedBody ai_code
  let file_name := ("command_").toList ++ short_title ++ (".ps1").toList
  let ps1_code := if add_header then headerText current_date ++ ps1_code else ps1_code
  { file_name := file_name, ps1_code := ps1_code,
    written := { path := file_name, content := ps1_code, enc := encoding } }

/-- Python f-string interpolation of a `bool` value: `True` or `False`. -/
def pyStrBool (b : Bool) : List Char :=
  if b then ("True").toList else ("False").toList

/-- Fixed prompt text before the interpolated command description
(`generate_powershell_command`, lines 120-125). -/
def promptSeg1 : List Char :=
  ("\n    You are a Powershell expert. Your task is to generate a single Powershell command based on the following description:\n" ++
   "\n" ++
   "    **Goal:** Create the most complete, detailed, and efficient Powershell command possible, considering all variables and scenarios.\n" ++
   "\n" ++
   "    **Command Description:** ").toList

/-- Fixed prompt text between the description and the detail level. -/
def promptSeg2 : List Char := ("\n\n    **Detail Level:** ").toList

/-- Fixed prompt text between the detail level and the script type. -/
def promptSeg3 : List Char := ("\n    **Script Type:** ").toList

/-- Fixed prompt text between the script type and the security level. -/
def promptSeg4 : List Char := ("\n    **Security Level:** ").toList

/-- Fixed prompt text between the security level and the prompt detail level. -/
def promptSeg5 : List Char := ("\n    **Prompt Detail Level**:").toList

/-- Fixed prompt text between the prompt detail level and the log level
(`generate_powershell_command`, lines 131-148). -/
def promptSeg6 : List Char :=
  ("\n\n    **Response Format:**\n" ++
   "    - Respond in Markdown format, including a Powershell code block with its original formatting, without line breaks.\n" ++
   "    - The Powershell code block must be delimited by ```powershell and ```.\n" ++
   "    - Do not include comments, explanations, or any other text outside the code block.\n" ++
   "    - The Powershell code must maintain its full vertical formatting, respecting indentation and line breaks.\n" ++
   "    - The code must be realistic, using real-world examples, data, and situations.\n" ++
   "    - Explore different approaches, techniques, and advanced practices.\n" ++
   "    - If generating a command with a chain of commands, do not use semicolons at the end or beginning.\n" ++
   "    - If necessary, use the pipe \"|\" to chain commands.\n" ++
   "    - Do not use any special formatting in the result, only the code.\n" ++
   "    - If the description asks to create a file, the command should create the file directly in the file system and not use a screen output for this.\n" ++
   "    - If the description asks to read a file, the command should read the file directly from the file system and not use a screen input for this.\n" ++
   "    - Use advanced PowerShell resources, such as pipelines, variables, functions, and script blocks, when necessary.\n" ++
   "     - The default operating system is Windows Server 2016, and the default Powershell version is 7, unless the user specifies otherwise.\n" ++
   "     - Make sure that the generated command is secure and follows the best Powershell practices.\n" ++
   "\n" ++
   "    **Log Level**:").toList

/-- Fixed prompt text between the log level and the error-handling flag. -/
def promptSeg7 : List Char := ("\n    **Error Handling**:").toList

/-- Fixed prompt text after the error-handling flag
(`generate_powershell_command`, lines 150-159). -/
def promptSeg8 : List Char :=
  ("\n\n     **Important:**\n" ++
   "    - Generate only one command at a time.\n" ++
   "    - Create the longest, most complete, and detailed code possible.\n" ++
   "    - Consider all the details of the request, expanding the response and improving the command.\n" ++
   "     - Use contextual information (such as PowerShell version and operating system) to generate the command.\n" ++
   "     - If possible, use incremental reasoning to add improvements, expansions, and considerations to your code.\n" ++
   "     - Use the history of the conversations so that the response is incremental.\n" ++
   "\n    ").toList

/-- The prompt f-string of `generate_powershell_command`, lines 120-159: a
fixed preamble with the user options interpolated at seven slots. -/
def buildPrompt (prompt_base detail_level script_type security_level prompt_detail
    log_level : List Char) (add_error_handling : Bool) : List Char :=
  promptSeg1 ++ prompt_base ++ promptSeg2 ++ detail_level ++ promptSeg3 ++ script_type ++
  promptSeg4 ++ security_level ++ promptSeg5 ++ prompt_detail ++ promptSeg6 ++ log_level ++
  promptSeg7 ++ pyStrBool add_error_handling ++ promptSeg8

/-- The immutable request record assembled by the UI (spec §3): the widget
values of `main`, lines 296-347. -/
structure GenerationRequest where
  description : List Char
  detailLevel : List Char
  scriptType : List Char
  securityLevel : List Char
  promptDetail : List Char
  logLevel : List Char
  addErrorHandling : Bool
  encoding : List Char
  addHeader : Bool
  modelName : List Char
  temperature : ℚ
  maxTokens : ℕ

/-- `buildPrompt` applied to the fields of a `GenerationRequest`. -/
def buildPromptReq (r : GenerationRequest) : List Char :=
  buildPrompt r.description r.detailLevel r.scriptType r.securityLevel r.promptDetail
    r.logLevel r.addErrorHandling

/-- `send_message_to_model` (lines 29-81).  The remote generative endpoint is
an explicit oracle `net` mapping the message to either a text reply or a
raised error; the `try/except` returns the reply text on success and `None`
(after displaying the error) on any exception. -/
def send_message_to_model (net : List Char → Except (List Char) (List Char))
    (message : List Char) : Option (List Char) :=
  match net message with
  | Except.ok t => some t
  | Except.error _ => none

/-- `generate_powershell_command` (lines 83-162): build the prompt and forward
it to the model client. -/
def generate_powershell_command (net : List Char → Except (List Char) (List Char))
    (prompt_base detail_level script_type security_level prompt_detail
    log_level : List Char) (add_error_handling : Bool) : Option (List Char) :=
  send_message_to_model net
    (buildPrompt prompt_base detail_level script_type security_level prompt_detail
      log_level add_error_handling)

/-- The generation cycle of `main`, lines 357-403, after the button press and
the preset combination: reject an empty description (line 359), call the
generator, and only when the reply is truthy (neither `None` nor the empty
string, line 384) derive the short title and save the file; otherwise show
an error and produce nothing. -/
def mainGenerate (net : List Char → Except (List Char) (List Char))
    (prompt_base detail_level script_type security_level prompt_detail
    log_level : List Char) (add_error_handling : Bool) (encoding : List Char)
    (add_header : Bool) (current_date : List Char) : Option SaveResult :=
  if prompt_base.isEmpty then none
  else
    match generate_powershell_command net prompt_base detail_level script_type
        security_level prompt_detail log_level add_error_handling with
    | none => none
    | some ai_code =>
      if ai_code.isEmpty then none
      else some (parse_and_save_ps1 ai_code (shortTitleOf prompt_base) encoding
        add_header current_date)

end PSGen


namespace PSGen

lemma matchesClasses_cons_some {f : Char → Bool} {fs : List (Char → Bool)}
    {s r : List Char} (h : matchesClasses (f :: fs) s = some r) :
    ∃ c cs, s = c :: cs ∧ f c = true ∧ matchesClasses fs cs = some r := by
  cases s with
  | nil => simp [matchesClasses] at h
  | cons c cs =>
    simp only [matchesClasses] at h
    split at h
    · exact ⟨c, cs, rfl, by assumption, h⟩
    · exact absurd h (by simp)

lemma stripMarker_cons_none {c : Char} {cs : List Char} (h : ¬ c = bq) :
    stripMarker (c :: cs) = none := by
  simp only [stripMarker, mkChars, matchesClasses]
  simp [h]

lemma stripMarker_shape {s r : List Char} (h : stripMarker s = some r) :
    ∃ t, s = bq :: bq :: bq :: t := by
  unfold stripMarker mkChars at h
  obtain ⟨c1, cs1, he1, hf1, h⟩ := matchesClasses_cons_some h
  obtain ⟨c2, cs2, he2, hf2, h⟩ := matchesClasses_cons_some h
  obtain ⟨c3, cs3, he3, hf3, _⟩ := matchesClasses_cons_some h
  have e1 : c1 = bq := by simpa using hf1
  have e2 : c2 = bq := by simpa using hf2
  have e3 : c3 = bq := by simpa using hf3
  subst he1 he2 he3 e1 e2 e3
  exact ⟨cs3, rfl⟩

lemma startsTicks_of_marker {c : Char} {cs r : List Char}
    (h : stripMarker (c :: cs) = some r) : startsTicks (c :: cs) = true := by
  obtain ⟨t, ht⟩ := stripMarker_shape h
  rw [ht]
  simp [startsTicks]

lemma stripMarker_none_of_startsTicks_false {c : Char} {cs : List Char}
    (h : startsTicks (c :: cs) = false) : stripMarker (c :: cs) = none := by
  cases hm : stripMarker (c :: cs) with
  | none => rfl
  | some r => rw [startsTicks_of_marker hm] at h; exact absurd h (by simp)

lemma extractBlock_cons_none {c : Char} {cs : List Char}
    (h : stripMarker (c :: cs) = none) : extractBlock (c :: cs) = extractBlock cs := by
  simp only [extractBlock, h]

lemma extractBlock_cons_noClose {c : Char} {cs rest : List Char}
    (h1 : stripMarker (c :: cs) = some rest) (h2 : splitAtTicks rest = none) :
    extractBlock (c :: cs) = extractBlock cs := by
  simp only [extractBlock, h1, h2]

lemma extractBlock_cons_found {c : Char} {cs rest interior : List Char}
    (h1 : stripMarker (c :: cs) = some rest) (h2 : splitAtTicks rest = some interior) :
    extractBlock (c :: cs) = some interior := by
  simp only [extractBlock, h1, h2]

lemma extractBlock_append_left {pre : List Char} (s : List Char)
    (hpre : ∀ c ∈ pre, ¬ c = bq) :
    extractBlock (pre ++ s) = extractBlock s := by
  induction pre with
  | nil => rfl
  | cons c cs ih =>
    have hc : ¬ c = bq := hpre c (List.mem_cons_self c cs)
    rw [List.cons_append, extractBlock_cons_none (stripMarker_cons_none hc)]
    exact ih (fun d hd => hpre d (List.mem_cons_of_mem c hd))

lemma startsTicks_cons_false {c : Char} {l : List Char} (h : ¬ c = bq) :
    startsTicks (c :: l) = false := by
  cases l with
  | nil => rfl
  | cons b t =>
    cases t with
    | nil => rfl
    | cons d u => simp [startsTicks, h]

lemma splitAtTicks_sandwich {mid : List Char} (post : List Char)
    (hmid : ∀ c ∈ mid, ¬ c = bq) :
    splitAtTicks (mid ++ (ticks3 ++ post)) = some mid := by
  induction mid with
  | nil =>
    show splitAtTicks (ticks3 ++ post) = some []
    simp [ticks3, splitAtTicks, startsTicks]
  | cons c cs ih =>
    have hc : ¬ c = bq := hmid c (List.mem_cons_self c cs)
    have hst := startsTicks_cons_false (l := cs ++ (ticks3 ++ post)) hc
    rw [List.cons_append]
    simp [splitAtTicks, hst, ih (fun d hd => hmid d (List.mem_cons_of_mem c hd))]

lemma splitAtTicks_none_of_noTicks {s : List Char} (h : hasTicks s = false) :
    splitAtTicks s = none := by
  induction s with
  | nil => rfl
  | cons c cs ih =>
    simp only [hasTicks, Bool.or_eq_false_iff] at h
    obtain ⟨h1, h2⟩ := h
    simp [splitAtTicks, h1, ih h2]

lemma extractBlock_none_of_noTicks {s : List Char} (h : hasTicks s = false) :
    extractBlock s = none := by
  induction s with
  | nil => rfl
  | cons c cs ih =>
    simp only [hasTicks, Bool.or_eq_false_iff] at h
    obtain ⟨h1, h2⟩ := h
    rw [extractBlock_cons_none (stripMarker_none_of_startsTicks_false h1)]
    exact ih h2

lemma extractBlock_none_of_noMarker {s : List Char} (h : hasMarker s = false) :
    extractBlock s = none := by
  induction s with
  | nil => rfl
  | cons c cs ih =>
    simp only [hasMarker, Bool.or_eq_false_iff] at h
    obtain ⟨h1, h2⟩ := h
    have h1' : stripMarker (c :: cs) = none := by
      cases hm : stripMarker (c :: cs) with
      | none => rfl
      | some r => rw [hm] at h1; exact absurd h1 (by simp)
    rw [extractBlock_cons_none h1']
    exact ih h2

lemma stripMarker_mkLower (z : List Char) : stripMarker (mkLower ++ z) = some z := rfl

lemma stripMarker_mkUpper (z : List Char) : stripMarker (mkUpper ++ z) = some z := rfl

lemma extractBlock_mkLower_found {mid : List Char} (post : List Char)
    (hmid : ∀ c ∈ mid, ¬ c = bq) :
    extractBlock (mkLower ++ (mid ++ (ticks3 ++ post))) = some mid :=
  extractBlock_cons_found (stripMarker_mkLower (mid ++ (ticks3 ++ post)))
    (splitAtTicks_sandwich post hmid)

lemma extractBlock_mkUpper_found {mid : List Char} (post : List Char)
    (hmid : ∀ c ∈ mid, ¬ c = bq) :
    extractBlock (mkUpper ++ (mid ++ (ticks3 ++ post))) = some mid :=
  extractBlock_cons_found (stripMarker_mkUpper (mid ++ (ticks3 ++ post)))
    (splitAtTicks_sandwich post hmid)

lemma stripLeft_append_spaces {ws : List Char} (x : List Char)
    (h : ∀ c ∈ ws, isPySpace c = true) : stripLeft (ws ++ x) = stripLeft x := by
  induction ws with
  | nil => rfl
  | cons c cs ih =>
    have hc := h c (List.mem_cons_self c cs)
    rw [List.cons_append]
    simp only [stripLeft, hc, if_true]
    exact ih (fun d hd => h d (List.mem_cons_of_mem c hd))

lemma stripLeft_cons_nospace {c : Char} {x : List Char} (h : isPySpace c = false) :
    stripLeft (c :: x) = c :: x := by
  simp [stripLeft, h]

lemma stripRight_append_spaces (x : List Char) {ws : List Char}
    (h : ∀ c ∈ ws, isPySpace c = true) : stripRight (x ++ ws) = stripRight x := by
  unfold stripRight
  rw [List.reverse_append,
    stripLeft_append_spaces _ (fun c hc => h c (List.mem_reverse.mp hc))]

lemma space_ne_bq {c : Char} (h : isPySpace c = true) : ¬ c = bq := by
  intro he
  rw [he] at h
  exact absurd h (by decide)

lemma pyStrip_sandwich_gp {ws1 ws2 : List Char}
    (h1 : ∀ c ∈ ws1, isPySpace c = true) (h2 : ∀ c ∈ ws2, isPySpace c = true) :
    pyStrip (ws1 ++ (("Get-Process").toList ++ ws2)) = ("Get-Process").toList := by
  unfold pyStrip
  rw [stripLeft_append_spaces _ h1]
  rw [show ("Get-Process").toList ++ ws2 = 'G' :: (("et-Process").toList ++ ws2) from rfl]
  rw [stripLeft_cons_nospace (by decide)]
  rw [show ('G' : Char) :: (("et-Process").toList ++ ws2) = ("Get-Process").toList ++ ws2 from rfl]
  rw [stripRight_append_spaces _ h2]
  decide

end PSGen

namespace PSGen

/-- Claim C1, counterexample: for the description "List all running processes
that use CPU", the code derives the shortTitle and file name from the first
30 characters only, so the claimed shortTitle
"list_all_running_processes_that" (31 characters) and file name
"command_list_all_running_processes_that.ps1" are not produced. -/
theorem c1_counterexample :
    ¬ (shortTitleOf (("List all running processes that use CPU").toList)
         = ("list_all_running_processes_that").toList ∧
       (parse_and_save_ps1 (("Get-Process").toList)
          (shortTitleOf (("List all running processes that use CPU").toList))
          (("utf-8").toList) false []).file_name
         = ("command_list_all_running_processes_that.ps1").toList) := by
  decide

/-- Claim C1, amended: for the description "List all running processes that
use CPU", the derived shortTitle equals "list_all_running_processes_tha"
(the first 30 characters end inside the word "that"), and the derived file
name equals "command_list_all_running_processes_tha.ps1". -/
theorem c1_amended_filename :
    shortTitleOf (("List all running processes that use CPU").toList)
      = ("list_all_running_processes_tha").toList ∧
    (parse_and_save_ps1 (("Get-Process").toList)
       (shortTitleOf (("List all running processes that use CPU").toList))
       (("utf-8").toList) false []).file_name
      = ("command_list_all_running_processes_tha.ps1").toList := by
  decide

/-- Claim C2: for every raw input, short title, encoding and date, with
addHeader true the returned body starts with the fixed banner line of the
header (the newline that opens the header f-string followed by the
80-character banner line), and with addHeader false the returned body equals
the extracted script with no banner prepended. -/
theorem c2_header_flag (raw short_title encoding current_date : List Char) :
    ('\n' :: bannerLine) <+:
      (parse_and_save_ps1 raw short_title encoding true current_date).ps1_code ∧
    (parse_and_save_ps1 raw short_title encoding false current_date).ps1_code
      = extractedBody raw := by
  constructor
  · show ('\n' :: bannerLine) <+: headerText current_date ++ extractedBody raw
    refine ⟨("\n# Script Generated by Google Gemini 2 PowerShell Command Gen\n# Date: ").toList ++
      (current_date ++ (("\n# Author: Elias Andrade AKA Chaos4455\n").toList ++
      (bannerLine ++ (("\n    ").toList ++ extractedBody raw)))), ?_⟩
    simp [headerText, headerFixedStart, List.append_assoc]
  · rfl

/-- Claim C3: for every raw text consisting of prose, one fenced powershell
block whose interior is "Get-Process" padded with whitespace, and trailing
prose (prose containing no backtick), the extraction step returns the body
"Get-Process" with the padding stripped. -/
theorem c3_extraction_roundtrip (pre ws1 ws2 post : List Char)
    (hpre : ∀ c ∈ pre, ¬ c = bq)
    (hws1 : ∀ c ∈ ws1, isPySpace c = true)
    (hws2 : ∀ c ∈ ws2, isPySpace c = true)
    (hpost : ∀ c ∈ post, ¬ c = bq) :
    extractedBody
        (pre ++ (mkLower ++ ((ws1 ++ (("Get-Process").toList ++ ws2)) ++ (ticks3 ++ post))))
      = ("Get-Process").toList := by
  have hgp : ∀ c ∈ ("Get-Process").toList, ¬ c = bq := by decide
  have hmid : ∀ c ∈ ws1 ++ (("Get-Process").toList ++ ws2), ¬ c = bq := by
    intro c hc
    rcases List.mem_append.mp hc with h | h
    · exact space_ne_bq (hws1 c h)
    · rcases List.mem_append.mp h with h' | h'
      · exact hgp c h'
      · exact space_ne_bq (hws2 c h')
  have hb : extractBlock
      (pre ++ (mkLower ++ ((ws1 ++ (("Get-Process").toList ++ ws2)) ++ (ticks3 ++ post))))
      = some (ws1 ++ (("Get-Process").toList ++ ws2)) := by
    rw [extractBlock_append_left _ hpre]
    exact extractBlock_mkLower_found _ hmid
  simp only [extractedBody, hb]
  exact pyStrip_sandwich_gp hws1 hws2

/-- Witness for C3: a concrete reply with prose around the fenced block. -/
theorem c3_extraction_roundtrip_witness :
    extractedBody
        ((("Sure! Here is the command:\n").toList ++
          (mkLower ++ (((("\n").toList ++ (("Get-Process").toList ++ ("\n").toList))) ++
          (ticks3 ++ ("\nEnjoy!").toList)))))
      = ("Get-Process").toList :=
  c3_extraction_roundtrip (("Sure! Here is the command:\n").toList) (("\n").toList)
    (("\n").toList) (("\nEnjoy!").toList) (by decide) (by decide) (by decide) (by decide)

/-- Claim C4: for every raw text that contains no fenced-block terminator
token at all, the extraction step returns the entire input,
whitespace-trimmed at both ends. -/
theorem c4_fallback_no_fences (raw : List Char) (h : hasTicks raw = false) :
    extractedBody raw = pyStrip raw := by
  simp only [extractedBody, extractBlock_none_of_noTicks h]

/-- Witness for C4: the raw reply "Get-Process" with no fences. -/
theorem c4_fallback_no_fences_witness :
    hasTicks (("Get-Process").toList) = false ∧
    extractedBody (("Get-Process").toList) = pyStrip (("Get-Process").toList) :=
  ⟨by decide, c4_fallback_no_fences (("Get-Process").toList) (by decide)⟩

/-- Claim C5: whenever the remote call raised (any transport, authentication,
quota or malformed-response error, modelled as the oracle returning an
error), the generation cycle produces no result at all: no saved file and no
download pair. -/
theorem c5_api_failure_no_write (net : List Char → Except (List Char) (List Char))
    (prompt_base detail_level script_type security_level prompt_detail
    log_level : List Char) (add_error_handling : Bool) (encoding : List Char)
    (add_header : Bool) (current_date msg : List Char)
    (hfail : net (buildPrompt prompt_base detail_level script_type security_level
      prompt_detail log_level add_error_handling) = Except.error msg) :
    mainGenerate net prompt_base detail_level script_type security_level prompt_detail
      log_level add_error_handling encoding add_header current_date = none := by
  by_cases hpb : prompt_base.isEmpty = true
  · simp [mainGenerate, hpb]
  · simp [mainGenerate, hpb, generate_powershell_command, send_message_to_model, hfail]

/-- Witness for C5: a network oracle that always fails. -/
theorem c5_api_failure_no_write_witness :
    mainGenerate (fun _ => Except.error (("boom").toList)) (("List files").toList)
      (("Default").toList) (("More automatic").toList) (("Medium").toList)
      (("Default").toList) (("Default").toList) true (("utf-8").toList) true [] = none :=
  c5_api_failure_no_write (fun _ => Except.error (("boom").toList)) (("List files").toList)
    (("Default").toList) (("More automatic").toList) (("Medium").toList)
    (("Default").toList) (("Default").toList) true (("utf-8").toList) true [] (("boom").toList)
    rfl

/-- Claim C6: a fenced block whose opening marker is written in upper case is
still recognized, and the extraction step returns its trimmed interior
(interior and surrounding prose containing no backtick). -/
theorem c6_upper_marker (pre interior post : List Char)
    (hpre : ∀ c ∈ pre, ¬ c = bq)
    (hint : ∀ c ∈ interior, ¬ c = bq)
    (hpost : ∀ c ∈ post, ¬ c = bq) :
    extractedBody (pre ++ (mkUpper ++ (interior ++ (ticks3 ++ post))))
      = pyStrip interior := by
  have hb : extractBlock (pre ++ (mkUpper ++ (interior ++ (ticks3 ++ post))))
      = some interior := by
    rw [extractBlock_append_left _ hpre]
    exact extractBlock_mkUpper_found _ hint
  simp only [extractedBody, hb]

/-- Witness for C6: a concrete reply whose opening marker is upper-cased. -/
theorem c6_upper_marker_witness :
    extractedBody ((("Answer:\n").toList ++
        (mkUpper ++ ((("\nGet-Process | Sort-Object CPU\n").toList) ++
        (ticks3 ++ ((" done").toList))))))
      = pyStrip (("\nGet-Process | Sort-Object CPU\n").toList) :=
  c6_upper_marker (("Answer:\n").toList) (("\nGet-Process | Sort-Object CPU\n").toList)
    ((" done").toList) (by decide) (by decide) (by decide)

/-- Claim C7: the prompt built by generate_powershell_command depends only on
the description, detail level, script type, security level, prompt detail,
log level and error-handling flag of the request: two requests agreeing on
those seven fields yield byte-identical prompts, whatever their other
fields. -/
theorem c7_prompt_deterministic (r1 r2 : GenerationRequest)
    (h1 : r1.description = r2.description) (h2 : r1.detailLevel = r2.detailLevel)
    (h3 : r1.scriptType = r2.scriptType) (h4 : r1.securityLevel = r2.securityLevel)
    (h5 : r1.promptDetail = r2.promptDetail) (h6 : r1.logLevel = r2.logLevel)
    (h7 : r1.addErrorHandling = r2.addErrorHandling) :
    buildPromptReq r1 = buildPromptReq r2 := by
  unfold buildPromptReq
  rw [h1, h2, h3, h4, h5, h6, h7]

/-- Witness for C7: two requests equal on the seven prompt fields but with
different temperature, token cap, encoding, header flag and model produce
the same prompt. -/
theorem c7_prompt_deterministic_witness :
    buildPromptReq
      { description := ("List files").toList, detailLevel := ("Default").toList,
        scriptType := ("More automatic").toList, securityLevel := ("Medium").toList,
        promptDetail := ("Default").toList, logLevel := ("Default").toList,
        addErrorHandling := true, encoding := ("utf-8").toList, addHeader := true,
        modelName := ("gemini-2.0-flash-exp").toList, temperature := 7/10,
        maxTokens := 8192 }
    = buildPromptReq
      { description := ("List files").toList, detailLevel := ("Default").toList,
        scriptType := ("More automatic").toList, securityLevel := ("Medium").toList,
        promptDetail := ("Default").toList, logLevel := ("Default").toList,
        addErrorHandling := true, encoding := ("ansi").toList, addHeader := false,
        modelName := ("gemini-1.5-flash").toList, temperature := 3/10,
        maxTokens := 1024 } :=
  c7_prompt_deterministic _ _ rfl rfl rfl rfl rfl rfl rfl

/-- Claim C8: for every raw input, short title, encoding and header flag, the
body string and file name returned by parse_and_save_ps1 are exactly the
content and path of the file write it just performed. -/
theorem c8_saved_equals_returned (ai_code short_title encoding current_date : List Char)
    (add_header : Bool) :
    (parse_and_save_ps1 ai_code short_title encoding add_header current_date).ps1_code
      = (parse_and_save_ps1 ai_code short_title encoding add_header current_date).written.content ∧
    (parse_and_save_ps1 ai_code short_title encoding add_header current_date).file_name
      = (parse_and_save_ps1 ai_code short_title encoding add_header current_date).written.path :=
  ⟨rfl, rfl⟩

/-- Claim C9: a raw input consisting of prose (no backticks), the opening
powershell marker, and a tail with no three-backtick terminator takes the
fallback branch: the returned body is the entire trimmed raw text, unmatched
opening marker included. -/
theorem c9_unclosed_fence_fallback (pre rest : List Char)
    (hpre : ∀ c ∈ pre, ¬ c = bq) (hrest : hasTicks rest = false) :
    extractedBody (pre ++ (mkLower ++ rest)) = pyStrip (pre ++ (mkLower ++ rest)) := by
  have hsp : splitAtTicks rest = none := splitAtTicks_none_of_noTicks hrest
  have s1 : extractBlock (mkLower ++ rest) =
      extractBlock ([bq, bq, 'p', 'o', 'w', 'e', 'r', 's', 'h', 'e', 'l', 'l'] ++ rest) :=
    extractBlock_cons_noClose (stripMarker_mkLower rest) hsp
  have s2 : extractBlock ([bq, bq, 'p', 'o', 'w', 'e', 'r', 's', 'h', 'e', 'l', 'l'] ++ rest) =
      extractBlock ([bq, 'p', 'o', 'w', 'e', 'r', 's', 'h', 'e', 'l', 'l'] ++ rest) :=
    extractBlock_cons_none rfl
  have s3 : extractBlock ([bq, 'p', 'o', 'w', 'e', 'r', 's', 'h', 'e', 'l', 'l'] ++ rest) =
      extractBlock (['p', 'o', 'w', 'e', 'r', 's', 'h', 'e', 'l', 'l'] ++ rest) :=
    extractBlock_cons_none rfl
  have s4 : extractBlock (['p', 'o', 'w', 'e', 'r', 's', 'h', 'e', 'l', 'l'] ++ rest) =
      extractBlock rest := extractBlock_append_left _ (by decide)
  have hx : extractBlock (pre ++ (mkLower ++ rest)) = none := by
    rw [extractBlock_append_left _ hpre, s1, s2, s3, s4]
    exact extractBlock_none_of_noTicks hrest
  simp only [extractedBody, hx]

/-- Witness for C9: an opening marker with no closing fence after it. -/
theorem c9_unclosed_fence_fallback_witness :
    hasTicks (("\nGet-Process with no closing fence").toList) = false ∧
    extractedBody ((("Answer: ").toList ++
        (mkLower ++ ("\nGet-Process with no closing fence").toList)))
      = pyStrip ((("Answer: ").toList ++
        (mkLower ++ ("\nGet-Process with no closing fence").toList))) :=
  ⟨by decide,
   c9_unclosed_fence_fallback (("Answer: ").toList)
     (("\nGet-Process with no closing fence").toList) (by decide) (by decide)⟩

/-- Claim C10: a raw input in which the case-insensitive opening marker (three
backticks immediately followed by "powershell") occurs nowhere - in
particular one whose fenced block uses bare fences with no language tag - is
not recognized, and the returned body is the entire trimmed raw text, fences
included. -/
theorem c10_untagged_fence_fallback (raw : List Char) (h : hasMarker raw = false) :
    extractedBody raw = pyStrip raw := by
  simp only [extractedBody, extractBlock_none_of_noMarker h]

/-- Witness for C10: a reply with a bare untagged fenced block; the body keeps
the fences. -/
theorem c10_untagged_fence_fallback_witness :
    hasMarker (("Try this:\n```\nGet-Process\n```").toList) = false ∧
    extractedBody (("Try this:\n```\nGet-Process\n```").toList)
      = pyStrip (("Try this:\n```\nGet-Process\n```").toList) :=
  ⟨by decide,
   c10_untagged_fence_fallback (("Try this:\n```\nGet-Process\n```").toList) (by decide)⟩

end PSGen
